import Mathlib

set_option maxHeartbeats 1000000

/-!
Verification of the relay core of a reverse proxy (src/main.py): credential
rotation, per-credential project-id resolution with caching, request and
response transformation, and error passthrough.

The Python code is shallowly embedded: decoded JSON values are an inductive
type, Python dicts are insertion-ordered association lists, and operations
that can raise an uncaught Python exception (TypeError, AttributeError,
KeyError, json.JSONDecodeError) are modelled in the `Except Unit` monad,
where `.error ()` stands for such an exception escaping the enclosing code.
-/

/-- JSON values as decoded by the Python `json` module. -/
inductive Json where
  | null : Json
  | bool (b : Bool) : Json
  | num (n : Int) : Json
  | str (s : String) : Json
  | arr (xs : List Json) : Json
  | obj (kvs : List (String × Json)) : Json

/-- Lookup in an insertion-ordered association list (a Python dict). -/
def alistLookup {α : Type} : List (String × α) → String → Option α
  | [], _ => none
  | (k, v) :: rest, key => if k = key then some v else alistLookup rest key

/-- Helper of `setKey` past the first hit: a dict has no duplicate keys, so
on lists that model dicts this is the identity. -/
def replaceDups : List (String × Json) → String → Json → List (String × Json)
  | [], _, _ => []
  | (k, w) :: rest, key, v =>
    if k = key then (key, v) :: replaceDups rest key v
    else (k, w) :: replaceDups rest key v

/-- Python dict assignment `d[key] = v`: replace the binding in place if the
key is present (keeping its position), else append a new binding. -/
def setKey : List (String × Json) → String → Json → List (String × Json)
  | [], key, v => [(key, v)]
  | (k, w) :: rest, key, v =>
    if k = key then (key, v) :: replaceDups rest key v
    else (k, w) :: setKey rest key v

/-- Python dict deletion `del d[key]` (for a present key). -/
def delKey : List (String × Json) → String → List (String × Json)
  | [], _ => []
  | (k, w) :: rest, key =>
    if k = key then delKey rest key else (k, w) :: delKey rest key

/-- Substring containment on character lists (Python `pat in s`). -/
def hasSubstrList : List Char → List Char → Bool
  | [], pat => pat.isEmpty
  | c :: rest, pat => pat.isPrefixOf (c :: rest) || hasSubstrList rest pat

/-- Python `pat in s` for strings. -/
def strContains (s pat : String) : Bool :=
  hasSubstrList s.data pat.data

/-- Left-to-right non-overlapping replacement, fuelled to keep the recursion
structural; the fuel is the length of the subject so it never runs out. -/
def replaceAux : Nat → List Char → List Char → List Char → List Char
  | 0, s, _, _ => s
  | _ + 1, [], _, _ => []
  | fuel + 1, c :: rest, pat, rep =>
    if pat ≠ [] ∧ pat.isPrefixOf (c :: rest) then
      rep ++ replaceAux fuel ((c :: rest).drop pat.length) pat rep
    else c :: replaceAux fuel rest pat rep

/-- Python `s.replace(pat, rep)` (all non-overlapping occurrences,
left to right). -/
def strReplace (s pat rep : String) : String :=
  String.mk (replaceAux s.data.length s.data pat.data rep.data)

/-- Python `needle in j` on a decoded JSON value: key test on a dict,
membership on a list, substring test on a string; a TypeError (uncaught)
on the remaining, non-iterable values. -/
def pyContains (needle : String) : Json → Except Unit Bool
  | .obj kvs => .ok (alistLookup kvs needle).isSome
  | .arr xs => .ok (xs.any fun x => match x with | .str t => t == needle | _ => false)
  | .str s => .ok (strContains s needle)
  | _ => .error ()

/-- Python `j.get(key, dflt)`: only dicts have `.get`; anything else raises
an AttributeError. -/
def pyGetAttr : Json → String → Json → Except Unit Json
  | .obj kvs, key, dflt => .ok ((alistLookup kvs key).getD dflt)
  | _, _, _ => .error ()

/-- Python `j[key]` with a string key: KeyError on a dict missing the key,
TypeError on any non-dict value. -/
def pyGetItem : Json → String → Except Unit Json
  | .obj kvs, key =>
    match alistLookup kvs key with
    | some v => .ok v
    | none => .error ()
  | _, _ => .error ()

/-- Python `j[key] = v` with a string key: only dicts support it. -/
def pySetItem : Json → String → Json → Except Unit Json
  | .obj kvs, key, v => .ok (.obj (setKey kvs key v))
  | _, _, _ => .error ()

/-- Python `del j[key]` with a string key, for a key known to be present. -/
def pyDelItem : Json → String → Except Unit Json
  | .obj kvs, key =>
    if (alistLookup kvs key).isSome then .ok (.obj (delKey kvs key))
    else .error ()
  | _, _ => .error ()

/-- Python truthiness of a decoded JSON value. -/
def truthy : Json → Bool
  | .null => false
  | .bool b => b
  | .num n => n != 0
  | .str s => !s.isEmpty
  | .arr xs => !xs.isEmpty
  | .obj kvs => !kvs.isEmpty

/-- Key lookup on a JSON value (`none` on non-objects). -/
def Json.getKey : Json → String → Option Json
  | .obj kvs, key => alistLookup kvs key
  | _, _ => none

/-- Two-level key lookup on a JSON value. -/
def Json.getKey2 (j : Json) (k1 k2 : String) : Option Json :=
  (j.getKey k1).bind (fun v => Json.getKey v k2)

/-! ## Request Transformer (src/main.py `call_model`, lines 92-153)

The transform is the body of the `try` block: a JSON-decoding failure is
caught and leads to raw passthrough of the original model path and body
bytes; any other exception escapes `call_model` (no transformed body). -/

/-- The model-name alias (line 97). -/
def legacyModel : String := "gemini-2.0-flash-exp-image-generation"

/-- The successor model name (line 98). -/
def previewModel : String := "gemini-2.5-flash-image-preview"

/-- The forced response modalities (line 109). -/
def modalitiesTextImage : Json := .arr [.str "TEXT", .str "IMAGE"]

/-- The fixed safety-settings list (lines 117-150). -/
def safetySettingsJson : Json := .arr [
  .obj [("category", .str "HARM_CATEGORY_HATE_SPEECH"), ("threshold", .str "BLOCK_NONE")],
  .obj [("category", .str "HARM_CATEGORY_DANGEROUS_CONTENT"), ("threshold", .str "BLOCK_NONE")],
  .obj [("category", .str "HARM_CATEGORY_SEXUALLY_EXPLICIT"), ("threshold", .str "BLOCK_NONE")],
  .obj [("category", .str "HARM_CATEGORY_HARASSMENT"), ("threshold", .str "BLOCK_NONE")],
  .obj [("category", .str "HARM_CATEGORY_IMAGE_HATE"), ("threshold", .str "BLOCK_NONE")],
  .obj [("category", .str "HARM_CATEGORY_IMAGE_DANGEROUS_CONTENT"), ("threshold", .str "BLOCK_NONE")],
  .obj [("category", .str "HARM_CATEGORY_IMAGE_HARASSMENT"), ("threshold", .str "BLOCK_NONE")],
  .obj [("category", .str "HARM_CATEGORY_IMAGE_SEXUALLY_EXPLICIT"), ("threshold", .str "BLOCK_NONE")]]

/-- Lines 100-101: insert an empty `generationConfig` when the containment
test says it is absent. -/
def stepGenCfg (rj : Json) : Except Unit Json := do
  let hasGc ← pyContains "generationConfig" rj
  if hasGc then pure rj else pySetItem rj "generationConfig" (.obj [])

/-- Lines 105-106 and 107-108 share this shape: if `generationConfig` is in
the body and `field` is in `body.get("generationConfig", {})`, delete the
field from `body["generationConfig"]`. -/
def stepStripField (field : String) (rj : Json) : Except Unit Json := do
  let c1 ← pyContains "generationConfig" rj
  if c1 then do
    let gc ← pyGetAttr rj "generationConfig" (.obj [])
    let hasF ← pyContains field gc
    if hasF then do
      let gcv ← pyGetItem rj "generationConfig"
      let gcv' ← pyDelItem gcv field
      pySetItem rj "generationConfig" gcv'
    else pure rj
  else pure rj

/-- Line 109: `request_json["generationConfig"]["responseModalities"] =
["TEXT", "IMAGE"]`. -/
def stepImageFinal (rj : Json) : Except Unit Json := do
  let gcv ← pyGetItem rj "generationConfig"
  let gcv' ← pySetItem gcv "responseModalities" modalitiesTextImage
  pySetItem rj "generationConfig" gcv'

/-- Lines 104-109: the image-model block, guarded by a substring test on the
(possibly rewritten) model path. -/
def stepImage (mp : String) (rj : Json) : Except Unit Json :=
  if strContains mp previewModel then do
    let rj1 ← stepStripField "thinkingConfig" rj
    let rj2 ← stepStripField "responseMimeType" rj1
    stepImageFinal rj2
  else pure rj

/-- A Python `for` loop rebuilding a list element by element, stopping at
the first exception. -/
def forEachFix (f : Json → Except Unit Json) : List Json → Except Unit (List Json)
  | [] => .ok []
  | c :: rest =>
    match f c with
    | .error e => .error e
    | .ok c' =>
      match forEachFix f rest with
      | .error e => .error e
      | .ok rest' => .ok (c' :: rest')

/-- Lines 113-115 loop body: default a missing `role` to `"user"`. -/
def fixContent (c : Json) : Except Unit Json := do
  let hasRole ← pyContains "role" c
  if hasRole then pure c else pySetItem c "role" (.str "user")

/-- Lines 113-115: iterate over the `contents` value. Python iteration over
a list visits its elements; over a string, its one-character substrings
(each lacks `"role"` and does not support item assignment, so any non-empty
string raises); over a dict, its keys (a key containing `"role"` is skipped,
any other key raises); other values are not iterable. -/
def fixContents (cs : Json) : Except Unit Json :=
  match cs with
  | .arr xs => do
    let xs' ← forEachFix fixContent xs
    pure (.arr xs')
  | .str s => if s = "" then pure (.str s) else .error ()
  | .obj kvs =>
    if kvs.all (fun kv => strContains kv.1 "role") then pure (.obj kvs)
    else .error ()
  | _ => .error ()

/-- Lines 112-115: the `contents` role-defaulting block. -/
def stepContents (rj : Json) : Except Unit Json := do
  let hasContents ← pyContains "contents" rj
  if hasContents then do
    let cs ← pyGetItem rj "contents"
    let cs' ← fixContents cs
    pySetItem rj "contents" cs'
  else pure rj

/-- Lines 95-153, inside the `try`: the whole body transform on a decoded
JSON value, together with the alias rewrite of the model path (lines 97-98),
which is also inside the `try`. -/
def transformParsed (model_path : String) (rj : Json) :
    Except Unit (String × Json) := do
  let mp := if strContains model_path legacyModel
            then strReplace model_path legacyModel previewModel
            else model_path
  let rj1 ← stepGenCfg rj
  let rj2 ← stepImage mp rj1
  let rj3 ← stepContents rj2
  let rj4 ← pySetItem rj3 "safetySettings" safetySettingsJson
  pure (mp, rj4)

/-- Result of the request transform: `raw` is the `json.JSONDecodeError`
branch (line 152-153) in which the original model path and original body
bytes are forwarded unchanged; `err` is an uncaught Python exception, which
aborts `call_model` before anything is forwarded. -/
inductive TransformResult where
  | raw : TransformResult
  | err : TransformResult
  | ok (modelPath : String) (body : Json) : TransformResult

/-- Whether the transform produced a transformed body. -/
def TransformResult.isSuccess : TransformResult → Bool
  | .ok _ _ => true
  | _ => false

/-- The request transform. The raw body is represented by its parse: `none`
when the bytes are not valid JSON (the `json.JSONDecodeError` branch),
`some rj` when they decode to `rj`. -/
def transform (model_path : String) (body : Option Json) : TransformResult :=
  match body with
  | none => .raw
  | some rj =>
    match transformParsed model_path rj with
    | .ok (mp, b) => .ok mp b
    | .error _ => .err

/-! ## Response Transformer and Upstream Relay (src/main.py lines 155-219) -/

/-- Line 208 right-hand side, `[part for part in v if part]`: list
comprehension over a Python iterable with a truthiness filter. Iterating a
string yields its one-character substrings (all truthy); iterating a dict
yields its keys (truthy when non-empty); other scalars are not iterable. -/
def pyFilterTruthy : Json → Except Unit Json
  | .arr xs => .ok (.arr (xs.filter truthy))
  | .str s => .ok (.arr (s.data.map fun c => .str (String.mk [c])))
  | .obj kvs =>
    .ok (.arr (((kvs.map Prod.fst).filter (fun k => !k.isEmpty)).map Json.str))
  | _ => .error ()

/-- Lines 206-208 loop body: one candidate of the response. -/
def cleanCandidate (cand : Json) : Except Unit Json := do
  let c1 ← pyContains "content" cand
  if c1 then do
    let content ← pyGetAttr cand "content" (.obj [])
    let c2 ← pyContains "parts" content
    if c2 then do
      let cv ← pyGetItem cand "content"
      let pv ← pyGetItem cv "parts"
      let filtered ← pyFilterTruthy pv
      let cv' ← pySetItem cv "parts" filtered
      pySetItem cand "content" cv'
    else pure cand
  else pure cand

/-- Lines 205-208: the Response Transformer on a decoded 200 body.
`response_json.get('candidates', [])` is iterated: a list is visited element
by element; a string is visited by characters, none of which contains
`"content"`, so the loop is a no-op; a dict is visited by keys, and a key
containing `"content"` hits an attribute access on a string and raises. -/
def cleanBody (j : Json) : Except Unit Json := do
  let hasC ← pyContains "candidates" j
  if hasC then do
    let cands ← pyGetAttr j "candidates" (.arr [])
    match cands with
    | .arr xs => do
      let xs' ← forEachFix cleanCandidate xs
      pySetItem j "candidates" (.arr xs')
    | .str _ => pure j
    | .obj ckvs =>
      if ckvs.all (fun kv => !(strContains kv.1 "content")) then pure j
      else .error ()
    | _ => .error ()
  else pure j

/-- An upstream HTTP response, as observed by `call_model` after line 175.
`text` is the raw byte payload; `json` is its decoding (`none` when the
payload is not valid JSON). -/
structure UpstreamResponse where
  status : Nat
  headers : List (String × String)
  text : String
  json : Option Json

/-- Header lookup (`response.headers.get(k)`). -/
def headerGet (hs : List (String × String)) (k : String) : Option String :=
  (hs.find? (fun h => h.1 == k)).map Prod.snd

/-- What `call_model` returns to the original caller, as a function of the
upstream response (lines 177-219): a verbatim buffered passthrough for any
non-200 status; a live line-by-line stream for a 200 on a streaming
operation; a cleaned, re-encoded unary body (only the content-type header
kept) for any other 200; `err` when json.loads on a unary 200 body raises
(uncaught) or the cleaner raises. -/
inductive RelayOutcome where
  | passthrough (status : Nat) (headers : List (String × String)) (body : String)
  | streamed (contentType : Option String)
  | unary (contentType : Option String) (body : Json)
  | err : RelayOutcome

/-- Lines 177-219 of `call_model`: dispatch on the upstream response. -/
def handle_response (model_path : String) (resp : UpstreamResponse) :
    RelayOutcome :=
  if resp.status ≠ 200 then
    .passthrough resp.status resp.headers resp.text
  else if strContains model_path "streamGenerateContent" then
    .streamed (headerGet resp.headers "content-type")
  else
    match resp.json with
    | none => .err
    | some j =>
      match cleanBody j with
      | .ok j' => .unary (headerGet resp.headers "content-type") j'
      | .error _ => .err

/-! ## Identifier Resolver (src/main.py `get_project_id`, lines 48-70) -/

/-- The upstream's response to the probe call (line 58): status code, raw
body text, and its JSON decoding (`none` when `e.response.json()` would
raise). -/
structure ProbeResponse where
  status : Nat
  text : String
  json : Option Json

/-- What `get_project_id` produces: a project id, an `HTTPException` with a
status and detail string, or an uncaught Python exception. -/
inductive ResolveResult where
  | ok (projectId : String) : ResolveResult
  | httpError (status : Nat) (detail : String) : ResolveResult
  | pyError : ResolveResult
deriving DecidableEq

/-- One run of `get_project_id`: its result, the cache afterwards, and how
many probe calls went out on the network. -/
structure ResolveOutcome where
  result : ResolveResult
  cache : List (String × String)
  probes : Nat
deriving DecidableEq

/-- Line 62, `e.response.json().get("error", {}).get("message", "")`,
followed by the use of the value as a `re.search` subject: the body must be
a dict, its `error` entry (defaulted to `{}`) must be a dict, and the
`message` entry (defaulted to `""`) must be a string, else an uncaught
AttributeError or TypeError is raised. -/
def errorMessage (j : Json) : Except Unit String :=
  match j with
  | .obj kvs =>
    match (alistLookup kvs "error").getD (.obj []) with
    | .obj ekvs =>
      match (alistLookup ekvs "message").getD (.str "") with
      | .str m => .ok m
      | _ => .error ()
    | _ => .error ()
  | _ => .error ()

/-- Line 62-63 composed over the probe response: decode the body, then
extract the message; `none` decoding means `e.response.json()` raises. -/
def probeMessage (probe : ProbeResponse) : Except Unit String :=
  match probe.json with
  | none => .error ()
  | some j => errorMessage j

/-- Line 63, `re.search(r"projects/([^/]+)/locations/", msg)`: scan for the
leftmost position where the literal `projects/` is followed by a non-empty
run of non-slash characters and then the literal `/locations/`; return that
run. At a given start the group `[^/]+` can only end where the mandatory
following `/` sits, so the greedy run is the only candidate. -/
def findProjectId : List Char → Option String
  | [] => none
  | c :: rest =>
    if ("projects/".data).isPrefixOf (c :: rest) then
      let after := (c :: rest).drop ("projects/".data).length
      let seg := after.takeWhile (fun ch => ch != '/')
      if !seg.isEmpty && ("/locations/".data).isPrefixOf (after.drop seg.length)
      then some (String.mk seg)
      else findProjectId rest
    else findProjectId rest

/-- The regex extraction on a message string. -/
def extractProjectId (msg : String) : Option String :=
  findProjectId msg.data

/-- src/main.py lines 48-70, `get_project_id`. On a cache hit the stored id
is returned with no network call. On a miss exactly one probe goes out;
`raise_for_status()` raises `HTTPStatusError` exactly for a 4xx/5xx status.
A 404 whose body yields a message matching the pattern stores and returns
the extracted id; a 404 without a match, or any other 4xx/5xx, raises
`HTTPException(500, "Failed to extract project ID: " + body)`; a non-error
status falls through to line 70; a 404 whose body cannot be decoded (or
whose message is not a string) raises an uncaught exception. -/
def get_project_id (cache : List (String × String)) (key : String)
    (probe : ProbeResponse) : ResolveOutcome :=
  match alistLookup cache key with
  | some pid => ⟨.ok pid, cache, 0⟩
  | none =>
    if 400 ≤ probe.status ∧ probe.status < 600 then
      if probe.status = 404 then
        match probeMessage probe with
        | .error _ => ⟨.pyError, cache, 1⟩
        | .ok msg =>
          match extractProjectId msg with
          | some pid => ⟨.ok pid, (key, pid) :: cache, 1⟩
          | none =>
            ⟨.httpError 500 ("Failed to extract project ID: " ++ probe.text),
              cache, 1⟩
      else
        ⟨.httpError 500 ("Failed to extract project ID: " ++ probe.text),
          cache, 1⟩
    else ⟨.httpError 500 "Could not extract project ID from any key.", cache, 1⟩

/-! ## Credential Rotator and proxy endpoint (src/main.py lines 22-26 and
246-254) -/

/-- `itertools.cycle` over the configured key list, addressed by how many
`next()` calls have happened: call number `i` yields element `i mod N`. -/
def cycleGet (keys : List String) (i : Nat) : String :=
  keys.getD (i % keys.length) ""

/-- One `next(key_rotator)` under the lock: the element at the current
cursor, and the advanced cursor. -/
def rotNext (keys : List String) (i : Nat) : String × Nat :=
  (cycleGet keys i, i + 1)

/-- Cursor value before the (n+1)-th call, starting from the initial
state. -/
def rotState (keys : List String) : Nat → Nat
  | 0 => 0
  | n + 1 => (rotNext keys (rotState keys n)).2

/-- The credential returned by the (n+1)-th `next()` call. -/
def rotOutput (keys : List String) (n : Nat) : String :=
  (rotNext keys (rotState keys n)).1

/-- Mutable state shared by all calls of the `/v1beta` proxy endpoint: the
rotation cursor and the project-id cache. -/
structure ProxyState where
  rotIdx : Nat
  cache : List (String × String)
deriving DecidableEq

/-- The observable outcome of one proxy call. -/
inductive ProxyOutcome where
  | resolveFailed (r : ResolveResult) : ProxyOutcome
  | transformError : ProxyOutcome
  | relayed (o : RelayOutcome) : ProxyOutcome

/-- What one run of the `proxy` endpoint yields: its outcome, the credential
it consumed, and the shared state afterwards. -/
structure ProxyCallResult where
  outcome : ProxyOutcome
  usedKey : String
  state : ProxyState

/-- src/main.py lines 246-254 with the downstream `call_model`: take the next
credential under the lock (advancing the cursor before anything else),
resolve its project id, then transform and relay. `probeOf` gives the
upstream's answer to a probe for a given credential and `resp` the
upstream's answer to the relayed call. The successor cursor is written
independently of every later step, so a failed resolution or relay still
consumed its rotation position. -/
def proxy_call (keys : List String) (st : ProxyState)
    (probeOf : String → ProbeResponse) (model_path : String)
    (body : Option Json) (resp : UpstreamResponse) : ProxyCallResult :=
  let key := cycleGet keys st.rotIdx
  let r := get_project_id st.cache key (probeOf key)
  let outcome :=
    match r.result with
    | .ok _ =>
      (match transform model_path body with
       | .raw => ProxyOutcome.relayed (handle_response model_path resp)
       | .err => ProxyOutcome.transformError
       | .ok mp _ => ProxyOutcome.relayed (handle_response mp resp))
    | e => ProxyOutcome.resolveFailed e
  ⟨outcome, key, ⟨st.rotIdx + 1, r.cache⟩⟩

/-! ## Statement-side shape predicates and the spec-side cleaner -/

/-- Is a JSON value an object? -/
def isObjJson : Json → Bool
  | .obj _ => true
  | _ => false

/-- An optional field that is absent or bound to an object. -/
def isObjOpt : Option Json → Bool
  | none => true
  | some (.obj _) => true
  | some _ => false

/-- A `contents` field that is absent or a list of objects. -/
def goodContents : Option Json → Bool
  | none => true
  | some (.arr cs) => cs.all isObjJson
  | some _ => false

/-- A response candidate in the shape the part-filtering claim speaks about:
an object whose `content`, if present, is an object whose `parts`, if
present, is a list; or a non-object candidate on which the containment test
is defined and answers false. -/
def candGoodB : Json → Bool
  | .obj ckvs =>
    match alistLookup ckvs "content" with
    | none => true
    | some (.obj cnt) =>
      (match alistLookup cnt "parts" with
       | none => true
       | some (.arr _) => true
       | some _ => false)
    | some _ => false
  | .str s => !(strContains s "content")
  | .arr xs => !(xs.any fun x => match x with | .str t => t == "content" | _ => false)
  | _ => false

/-- Follows the spec's words (the comparison side for the part-filtering
claim): a candidate holding a content object with a parts list has that list
replaced by the subsequence of its truthy elements, order preserved; every
other candidate is returned unchanged. -/
def cleanCandSpec (c : Json) : Json :=
  match c with
  | .obj ckvs =>
    match alistLookup ckvs "content" with
    | some (.obj cnt) =>
      match alistLookup cnt "parts" with
      | some (.arr ps) =>
        .obj (setKey ckvs "content"
          (.obj (setKey cnt "parts" (.arr (ps.filter truthy)))))
      | _ => c
    | _ => c
  | _ => c

/-! ## Helper lemmas: association lists -/

theorem alistLookup_replaceDups_ne (l : List (String × Json)) (k k' : String)
    (v : Json) (hne : k' ≠ k) :
    alistLookup (replaceDups l k v) k' = alistLookup l k' := by
  induction l with
  | nil => rfl
  | cons hd tl ih =>
    obtain ⟨k1, w⟩ := hd
    by_cases hk : k1 = k
    · have h1 : k ≠ k' := fun h => hne h.symm
      simp [replaceDups, hk, alistLookup, h1, ih]
    · simp only [replaceDups, if_neg hk]
      by_cases hk' : k1 = k'
      · simp [alistLookup, hk']
      · simp [alistLookup, hk', ih]

theorem alistLookup_setKey_self (l : List (String × Json)) (k : String) (v : Json) :
    alistLookup (setKey l k v) k = some v := by
  induction l with
  | nil => simp [setKey, alistLookup]
  | cons hd tl ih =>
    obtain ⟨k1, w⟩ := hd
    by_cases hk : k1 = k
    · simp [setKey, hk, alistLookup]
    · simp [setKey, hk, alistLookup, ih]

theorem alistLookup_setKey_ne (l : List (String × Json)) (k k' : String) (v : Json)
    (hne : k' ≠ k) : alistLookup (setKey l k v) k' = alistLookup l k' := by
  induction l with
  | nil =>
    have h1 : k ≠ k' := fun h => hne h.symm
    simp [setKey, alistLookup, h1]
  | cons hd tl ih =>
    obtain ⟨k1, w⟩ := hd
    by_cases hk : k1 = k
    · have h1 : k ≠ k' := fun h => hne h.symm
      simp [setKey, hk, alistLookup, h1, alistLookup_replaceDups_ne tl k k' v hne]
    · by_cases hk' : k1 = k'
      · simp [setKey, hk, alistLookup, hk', hne]
      · simp [setKey, hk, alistLookup, hk', ih]

theorem alistLookup_delKey_self (l : List (String × Json)) (k : String) :
    alistLookup (delKey l k) k = none := by
  induction l with
  | nil => rfl
  | cons hd tl ih =>
    obtain ⟨k1, w⟩ := hd
    by_cases hk : k1 = k
    · simp [delKey, hk, ih]
    · simp [delKey, hk, alistLookup, ih]

theorem alistLookup_delKey_ne (l : List (String × Json)) (k k' : String)
    (hne : k' ≠ k) : alistLookup (delKey l k) k' = alistLookup l k' := by
  induction l with
  | nil => rfl
  | cons hd tl ih =>
    obtain ⟨k1, w⟩ := hd
    by_cases hk : k1 = k
    · have h1 : k ≠ k' := fun h => hne h.symm
      simp [delKey, hk, alistLookup, h1, ih]
    · by_cases hk' : k1 = k'
      · simp [delKey, hk, alistLookup, hk', hne]
      · simp [delKey, hk, alistLookup, hk', ih]

/-! ## Helper lemmas: rotator -/

theorem rotState_eq (keys : List String) (n : Nat) : rotState keys n = n := by
  induction n with
  | zero => rfl
  | succ n ih => simp [rotState, rotNext, ih]

theorem rotOutput_eq (keys : List String) (n : Nat) :
    rotOutput keys n = keys.getD (n % keys.length) "" := by
  simp [rotOutput, rotNext, rotState_eq, cycleGet]

theorem range_map_getD {α : Type} (l : List α) (d : α) :
    (List.range l.length).map (fun i => l.getD i d) = l := by
  induction l with
  | nil => rfl
  | cons a t ih =>
    rw [List.length_cons, List.range_succ_eq_map, List.map_cons, List.map_map]
    simp only [Function.comp_def, List.getD_cons_zero, List.getD_cons_succ]
    rw [ih]

/-! ## Helper lemmas: the Python primitives -/

theorem pySetItem_ok (j : Json) (k : String) (v b : Json)
    (h : pySetItem j k v = .ok b) :
    ∃ kvs, j = .obj kvs ∧ b = .obj (setKey kvs k v) := by
  cases j with
  | obj kvs =>
    refine ⟨kvs, rfl, ?_⟩
    simp only [pySetItem, Except.ok.injEq] at h
    exact h.symm
  | null => cases h
  | bool b' => cases h
  | num n => cases h
  | str s => cases h
  | arr xs => cases h

theorem pyGetItem_ok (j : Json) (k : String) (v : Json)
    (h : pyGetItem j k = .ok v) :
    ∃ kvs, j = .obj kvs ∧ alistLookup kvs k = some v := by
  cases j with
  | obj kvs =>
    refine ⟨kvs, rfl, ?_⟩
    unfold pyGetItem at h
    dsimp only at h
    cases hl : alistLookup kvs k with
    | none => rw [hl] at h; cases h
    | some w => rw [hl] at h; dsimp only at h; cases h; rfl
  | null => cases h
  | bool b' => cases h
  | num n => cases h
  | str s => cases h
  | arr xs => cases h

theorem pyGetAttr_ok (j : Json) (k : String) (d v : Json)
    (h : pyGetAttr j k d = .ok v) :
    ∃ kvs, j = .obj kvs ∧ v = (alistLookup kvs k).getD d := by
  cases j with
  | obj kvs =>
    refine ⟨kvs, rfl, ?_⟩
    simp only [pyGetAttr, Except.ok.injEq] at h
    exact h.symm
  | null => cases h
  | bool b' => cases h
  | num n => cases h
  | str s => cases h
  | arr xs => cases h

theorem pyDelItem_ok (j : Json) (k : String) (b : Json)
    (h : pyDelItem j k = .ok b) :
    ∃ kvs, j = .obj kvs ∧ b = .obj (delKey kvs k) := by
  cases j with
  | obj kvs =>
    refine ⟨kvs, rfl, ?_⟩
    unfold pyDelItem at h
    dsimp only at h
    by_cases hl : (alistLookup kvs k).isSome = true
    · rw [if_pos hl] at h
      cases h; rfl
    · rw [if_neg hl] at h; cases h
  | null => cases h
  | bool b' => cases h
  | num n => cases h
  | str s => cases h
  | arr xs => cases h

/-! ## Helper lemmas: the transform pipeline -/

theorem transform_ok_elim (mp mp' : String) (rj b' : Json)
    (h : transform mp (some rj) = .ok mp' b') :
    mp' = (if strContains mp legacyModel
           then strReplace mp legacyModel previewModel else mp) ∧
    ∃ rj1 rj2 rj3, stepGenCfg rj = .ok rj1 ∧ stepImage mp' rj1 = .ok rj2 ∧
      stepContents rj2 = .ok rj3 ∧
      pySetItem rj3 "safetySettings" safetySettingsJson = .ok b' := by
  simp only [transform] at h
  cases ht : transformParsed mp rj with
  | error e => rw [ht] at h; cases h
  | ok p =>
    rw [ht] at h
    obtain ⟨pmp, pb⟩ := p
    simp only [TransformResult.ok.injEq] at h
    obtain ⟨hmp, hb⟩ := h
    subst hmp; subst hb
    unfold transformParsed at ht
    cases h1 : stepGenCfg rj with
    | error e => rw [h1] at ht; simp [Bind.bind, Except.bind] at ht
    | ok rj1 =>
      rw [h1] at ht
      simp only [Bind.bind, Except.bind] at ht
      cases h2 : stepImage (if strContains mp legacyModel then strReplace mp legacyModel previewModel else mp) rj1 with
      | error e => rw [h2] at ht; dsimp only at ht; simp at ht
      | ok rj2 =>
        rw [h2] at ht
        dsimp only at ht
        cases h3 : stepContents rj2 with
        | error e => rw [h3] at ht; dsimp only at ht; simp at ht
        | ok rj3 =>
          rw [h3] at ht
          dsimp only at ht
          cases h4 : pySetItem rj3 "safetySettings" safetySettingsJson with
          | error e => rw [h4] at ht; dsimp only at ht; simp at ht
          | ok rj4 =>
            rw [h4] at ht
            dsimp only at ht
            simp only [pure, Except.pure, Except.ok.injEq, Prod.mk.injEq] at ht
            obtain ⟨hm, hb⟩ := ht
            subst hm; subst hb
            exact ⟨rfl, rj1, rj2, rj3, rfl, h2, h3, h4⟩

theorem stepStripField_ok_cases (f : String) (rj rj' : Json)
    (h : stepStripField f rj = .ok rj') :
    (rj' = rj ∧ pyContains "generationConfig" rj = .ok false) ∨
    (rj' = rj ∧ ∃ m, rj = .obj m ∧
      pyContains f ((alistLookup m "generationConfig").getD (.obj [])) = .ok false) ∨
    (∃ m gl, rj = .obj m ∧
      alistLookup m "generationConfig" = some (.obj gl) ∧
      rj' = .obj (setKey m "generationConfig" (.obj (delKey gl f)))) := by
  unfold stepStripField at h
  cases hc1 : pyContains "generationConfig" rj with
  | error e => rw [hc1] at h; simp [Bind.bind, Except.bind] at h
  | ok c1 =>
    rw [hc1] at h
    simp only [Bind.bind, Except.bind] at h
    cases c1 with
    | false =>
      simp only [Bool.false_eq_true, if_false, pure, Except.pure,
        Except.ok.injEq] at h
      exact Or.inl ⟨h.symm, rfl⟩
    | true =>
      simp only [eq_self_iff_true, if_true] at h
      cases hga : pyGetAttr rj "generationConfig" (.obj []) with
      | error e => rw [hga] at h; dsimp only at h; cases h
      | ok gcj =>
        rw [hga] at h
        dsimp only at h
        cases hcf : pyContains f gcj with
        | error e => rw [hcf] at h; dsimp only at h; cases h
        | ok hasF =>
          rw [hcf] at h
          dsimp only at h
          cases hasF with
          | false =>
            simp only [Bool.false_eq_true, if_false, pure, Except.pure,
              Except.ok.injEq] at h
            obtain ⟨m, hm, hgcj⟩ := pyGetAttr_ok rj "generationConfig" (.obj []) gcj hga
            refine Or.inr (Or.inl ⟨h.symm, m, hm, ?_⟩)
            rw [← hgcj]; exact hcf
          | true =>
            simp only [eq_self_iff_true, if_true] at h
            cases hgi : pyGetItem rj "generationConfig" with
            | error e => rw [hgi] at h; dsimp only at h; cases h
            | ok gcv =>
              rw [hgi] at h
              dsimp only at h
              cases hdel : pyDelItem gcv f with
              | error e => rw [hdel] at h; dsimp only at h; cases h
              | ok gcv2 =>
                rw [hdel] at h
                dsimp only at h
                obtain ⟨m, hm, hlook⟩ := pyGetItem_ok rj "generationConfig" gcv hgi
                obtain ⟨gl, hgl, hgcv2⟩ := pyDelItem_ok gcv f gcv2 hdel
                obtain ⟨m2, hm2, hrj'⟩ :=
                  pySetItem_ok rj "generationConfig" gcv2 rj' h
                have hmm : m2 = m := by
                  rw [hm] at hm2; exact (Json.obj.injEq _ _).mp hm2.symm
                subst hmm
                refine Or.inr (Or.inr ⟨m2, gl, hm, ?_, ?_⟩)
                · rw [hlook, hgl]
                · rw [hrj', hgcv2]

theorem stepStripField_absent (f : String) (rj rj' : Json)
    (gk' : List (String × Json))
    (h : stepStripField f rj = .ok rj')
    (hg : rj'.getKey "generationConfig" = some (.obj gk')) :
    alistLookup gk' f = none := by
  rcases stepStripField_ok_cases f rj rj' h with
    ⟨hid, hc⟩ | ⟨hid, m, hm, hcf⟩ | ⟨m, gl, hm, hlook, hrj'⟩
  · rw [hid] at hg
    cases rj with
    | obj m =>
      simp only [Json.getKey] at hg
      simp only [pyContains, Except.ok.injEq] at hc
      rw [hg] at hc; cases hc
    | null => cases hg
    | bool b => cases hg
    | num n => cases hg
    | str s => cases hg
    | arr xs => cases hg
  · rw [hid, hm] at hg
    simp only [Json.getKey] at hg
    rw [hg] at hcf
    simp only [Option.getD, pyContains, Except.ok.injEq] at hcf
    exact Option.not_isSome_iff_eq_none.mp (by rw [hcf]; exact Bool.false_ne_true)
  · rw [hrj'] at hg
    simp only [Json.getKey] at hg
    rw [alistLookup_setKey_self] at hg
    have : Json.obj (delKey gl f) = Json.obj gk' := by
      exact (Option.some.injEq _ _).mp hg
    have hgk : gk' = delKey gl f := ((Json.obj.injEq _ _).mp this).symm
    rw [hgk]
    exact alistLookup_delKey_self gl f

theorem stepStripField_pres (f g : String) (rj rj' : Json)
    (gk' : List (String × Json))
    (hfg : g ≠ f)
    (h : stepStripField f rj = .ok rj')
    (hg : rj'.getKey "generationConfig" = some (.obj gk')) :
    ∃ gk, rj.getKey "generationConfig" = some (.obj gk) ∧
      alistLookup gk' g = alistLookup gk g := by
  rcases stepStripField_ok_cases f rj rj' h with
    ⟨hid, hc⟩ | ⟨hid, m, hm, hcf⟩ | ⟨m, gl, hm, hlook, hrj'⟩
  · rw [hid] at hg
    exact ⟨gk', hg, rfl⟩
  · rw [hid] at hg
    exact ⟨gk', hg, rfl⟩
  · rw [hrj'] at hg
    simp only [Json.getKey] at hg
    rw [alistLookup_setKey_self] at hg
    have : Json.obj (delKey gl f) = Json.obj gk' := (Option.some.injEq _ _).mp hg
    have hgk : gk' = delKey gl f := ((Json.obj.injEq _ _).mp this).symm
    refine ⟨gl, ?_, ?_⟩
    · rw [hm]; simp only [Json.getKey]; exact hlook
    · rw [hgk]; exact alistLookup_delKey_ne gl f g hfg

theorem stepImageFinal_ok (rj rj2 : Json)
    (h : stepImageFinal rj = .ok rj2) :
    ∃ m gk, rj = .obj m ∧
      alistLookup m "generationConfig" = some (.obj gk) ∧
      rj2 = .obj (setKey m "generationConfig"
        (.obj (setKey gk "responseModalities" modalitiesTextImage))) := by
  unfold stepImageFinal at h
  cases hgi : pyGetItem rj "generationConfig" with
  | error e => rw [hgi] at h; simp [Bind.bind, Except.bind] at h
  | ok gcv =>
    rw [hgi] at h
    simp only [Bind.bind, Except.bind] at h
    cases hsi : pySetItem gcv "responseModalities" modalitiesTextImage with
    | error e => rw [hsi] at h; dsimp only at h; cases h
    | ok gcv' =>
      rw [hsi] at h
      dsimp only at h
      obtain ⟨m, hm, hlook⟩ := pyGetItem_ok rj "generationConfig" gcv hgi
      obtain ⟨gk, hgk, hgcv'⟩ :=
        pySetItem_ok gcv "responseModalities" modalitiesTextImage gcv' hsi
      obtain ⟨m2, hm2, hrj2⟩ := pySetItem_ok rj "generationConfig" gcv' rj2 h
      have hmm : m2 = m := by
        rw [hm] at hm2; exact (Json.obj.injEq _ _).mp hm2.symm
      subst hmm
      refine ⟨m2, gk, hm, ?_, ?_⟩
      · rw [hlook, hgk]
      · rw [hrj2, hgcv']

theorem stepImage_img_elim (mp : String) (rj rj2 : Json)
    (himg : strContains mp previewModel = true)
    (h : stepImage mp rj = .ok rj2) :
    ∃ ra rb, stepStripField "thinkingConfig" rj = .ok ra ∧
      stepStripField "responseMimeType" ra = .ok rb ∧
      stepImageFinal rb = .ok rj2 := by
  unfold stepImage at h
  rw [if_pos himg] at h
  cases h1 : stepStripField "thinkingConfig" rj with
  | error e => rw [h1] at h; simp [Bind.bind, Except.bind] at h
  | ok ra =>
    rw [h1] at h
    simp only [Bind.bind, Except.bind] at h
    cases h2 : stepStripField "responseMimeType" ra with
    | error e => rw [h2] at h; dsimp only at h; cases h
    | ok rb =>
      rw [h2] at h
      dsimp only at h
      exact ⟨ra, rb, rfl, h2, h⟩

theorem stepImage_img_fields (mp : String) (rj rj2 : Json)
    (himg : strContains mp previewModel = true)
    (h : stepImage mp rj = .ok rj2) :
    rj2.getKey2 "generationConfig" "thinkingConfig" = none ∧
    rj2.getKey2 "generationConfig" "responseMimeType" = none ∧
    rj2.getKey2 "generationConfig" "responseModalities" = some modalitiesTextImage := by
  obtain ⟨ra, rb, h1, h2, h3⟩ := stepImage_img_elim mp rj rj2 himg h
  obtain ⟨m, gk, hm, hlook, hrj2⟩ := stepImageFinal_ok rb rj2 h3
  have hgck : rj2.getKey "generationConfig" =
      some (.obj (setKey gk "responseModalities" modalitiesTextImage)) := by
    rw [hrj2]
    simp only [Json.getKey]
    exact alistLookup_setKey_self m "generationConfig" _
  have hbk : rb.getKey "generationConfig" = some (.obj gk) := by
    rw [hm]; simp only [Json.getKey]; exact hlook
  have hmime : alistLookup gk "responseMimeType" = none :=
    stepStripField_absent "responseMimeType" ra rb gk h2 hbk
  obtain ⟨gka, hgka, htceq⟩ :=
    stepStripField_pres "responseMimeType" "thinkingConfig" ra rb gk
      (by decide) h2 hbk
  have htca : alistLookup gka "thinkingConfig" = none :=
    stepStripField_absent "thinkingConfig" rj ra gka h1 hgka
  refine ⟨?_, ?_, ?_⟩
  · rw [Json.getKey2, hgck]
    simp only [Option.bind, Json.getKey]
    rw [alistLookup_setKey_ne _ _ _ _ (by decide), htceq, htca]
  · rw [Json.getKey2, hgck]
    simp only [Option.bind, Json.getKey]
    rw [alistLookup_setKey_ne _ _ _ _ (by decide), hmime]
  · rw [Json.getKey2, hgck]
    simp only [Option.bind, Json.getKey]
    exact alistLookup_setKey_self gk "responseModalities" modalitiesTextImage

theorem pySetItem_getKey_self (j : Json) (k : String) (v b : Json)
    (h : pySetItem j k v = .ok b) : b.getKey k = some v := by
  obtain ⟨kvs, hj, hb⟩ := pySetItem_ok j k v b h
  rw [hb]
  simp only [Json.getKey]
  exact alistLookup_setKey_self kvs k v

theorem pySetItem_getKey_ne (j : Json) (k k' : String) (v b : Json)
    (h : pySetItem j k v = .ok b) (hne : k' ≠ k) :
    b.getKey k' = j.getKey k' := by
  obtain ⟨kvs, hj, hb⟩ := pySetItem_ok j k v b h
  rw [hb, hj]
  simp only [Json.getKey]
  exact alistLookup_setKey_ne kvs k k' v hne

theorem stepContents_getKey_pres (rj rj' : Json) (k : String)
    (h : stepContents rj = .ok rj') (hk : k ≠ "contents") :
    rj'.getKey k = rj.getKey k := by
  unfold stepContents at h
  cases hc : pyContains "contents" rj with
  | error e => rw [hc] at h; simp [Bind.bind, Except.bind] at h
  | ok c =>
    rw [hc] at h
    simp only [Bind.bind, Except.bind] at h
    cases c with
    | false =>
      simp only [Bool.false_eq_true, if_false, pure, Except.pure,
        Except.ok.injEq] at h
      rw [← h]
    | true =>
      simp only [eq_self_iff_true, if_true] at h
      cases hgi : pyGetItem rj "contents" with
      | error e => rw [hgi] at h; dsimp only at h; cases h
      | ok cs =>
        rw [hgi] at h
        dsimp only at h
        cases hfx : fixContents cs with
        | error e => rw [hfx] at h; dsimp only at h; cases h
        | ok cs' =>
          rw [hfx] at h
          dsimp only at h
          exact pySetItem_getKey_ne rj "contents" k cs' rj' h hk

/-! ## Helper lemmas: the resolver -/

theorem resolve_hit (cache : List (String × String)) (key : String)
    (probe : ProbeResponse) (pid : String)
    (h : alistLookup cache key = some pid) :
    get_project_id cache key probe = ⟨.ok pid, cache, 0⟩ := by
  unfold get_project_id
  rw [h]

theorem resolve_preserves (cache : List (String × String)) (key : String)
    (probe : ProbeResponse) (k v : String)
    (h : alistLookup cache k = some v) :
    alistLookup (get_project_id cache key probe).cache k = some v := by
  unfold get_project_id
  cases hk : alistLookup cache key with
  | some pid => exact h
  | none =>
    dsimp only
    by_cases h46 : 400 ≤ probe.status ∧ probe.status < 600
    · rw [if_pos h46]
      by_cases h404 : probe.status = 404
      · rw [if_pos h404]
        cases hm : probeMessage probe with
        | error e => exact h
        | ok msg =>
          dsimp only
          cases he : extractProjectId msg with
          | some pid =>
            dsimp only
            simp only [alistLookup]
            by_cases hkk : key = k
            · rw [hkk] at hk; rw [hk] at h; cases h
            · rw [if_neg hkk]; exact h
          | none => exact h
      · rw [if_neg h404]; exact h
    · rw [if_neg h46]; exact h

theorem resolve_ok_shape (cache : List (String × String)) (key : String)
    (probe : ProbeResponse) (pid : String)
    (hmiss : alistLookup cache key = none)
    (h : (get_project_id cache key probe).result = .ok pid) :
    get_project_id cache key probe = ⟨.ok pid, (key, pid) :: cache, 1⟩ := by
  unfold get_project_id at h ⊢
  rw [hmiss] at h ⊢
  dsimp only at h ⊢
  by_cases h46 : 400 ≤ probe.status ∧ probe.status < 600
  · rw [if_pos h46] at h ⊢
    by_cases h404 : probe.status = 404
    · rw [if_pos h404] at h ⊢
      generalize probeMessage probe = pm at h ⊢
      cases pm with
      | error e => dsimp only at h; cases h
      | ok msg =>
        dsimp only at h ⊢
        generalize extractProjectId msg = ep at h ⊢
        cases ep with
        | some pid2 =>
          dsimp only at h ⊢
          cases h
          rfl
        | none => dsimp only at h; cases h
    · rw [if_neg h404] at h; dsimp only at h; cases h
  · rw [if_neg h46] at h; dsimp only at h; cases h

/-! ## Helper lemmas: totality of the transform on well-shaped bodies -/

theorem fixContent_obj (ck : List (String × Json)) :
    ∃ c', fixContent (.obj ck) = .ok c' := by
  unfold fixContent
  by_cases hr : (alistLookup ck "role").isSome = true
  · refine ⟨.obj ck, ?_⟩
    simp [pyContains, Bind.bind, Except.bind, hr, pure, Except.pure]
  · refine ⟨.obj (setKey ck "role" (.str "user")), ?_⟩
    rw [Bool.not_eq_true] at hr
    simp [pyContains, Bind.bind, Except.bind, hr, pySetItem]

theorem forEachFix_ok_all (cs : List Json) (hall : cs.all isObjJson = true) :
    ∃ cs', forEachFix fixContent cs = .ok cs' := by
  induction cs with
  | nil => exact ⟨[], rfl⟩
  | cons c rest ih =>
    rw [List.all_cons, Bool.and_eq_true] at hall
    obtain ⟨hc, hrest⟩ := hall
    cases c with
    | obj ck =>
      obtain ⟨c', hc'⟩ := fixContent_obj ck
      obtain ⟨cs', hcs'⟩ := ih hrest
      exact ⟨c' :: cs', by simp [forEachFix, hc', hcs']⟩
    | null => simp [isObjJson] at hc
    | bool b => simp [isObjJson] at hc
    | num n => simp [isObjJson] at hc
    | str s => simp [isObjJson] at hc
    | arr xs => simp [isObjJson] at hc

theorem stepGenCfg_inv (kvs : List (String × Json))
    (hgc : isObjOpt (alistLookup kvs "generationConfig") = true) :
    ∃ m g, stepGenCfg (.obj kvs) = .ok (.obj m) ∧
      alistLookup m "generationConfig" = some (.obj g) ∧
      alistLookup m "contents" = alistLookup kvs "contents" := by
  unfold stepGenCfg
  cases hc : alistLookup kvs "generationConfig" with
  | none =>
    refine ⟨setKey kvs "generationConfig" (.obj []), [], ?_, ?_, ?_⟩
    · simp [pyContains, Bind.bind, Except.bind, hc, pySetItem]
    · exact alistLookup_setKey_self kvs _ _
    · exact alistLookup_setKey_ne kvs _ _ _ (by decide)
  | some v =>
    rw [hc] at hgc
    cases v with
    | obj g =>
      refine ⟨kvs, g, ?_, hc, rfl⟩
      simp [pyContains, Bind.bind, Except.bind, hc, pure, Except.pure]
    | null => simp [isObjOpt] at hgc
    | bool b => simp [isObjOpt] at hgc
    | num n => simp [isObjOpt] at hgc
    | str s => simp [isObjOpt] at hgc
    | arr xs => simp [isObjOpt] at hgc

theorem stepStripField_inv (f : String) (m g : List (String × Json))
    (hg : alistLookup m "generationConfig" = some (.obj g)) :
    ∃ m' g', stepStripField f (.obj m) = .ok (.obj m') ∧
      alistLookup m' "generationConfig" = some (.obj g') ∧
      alistLookup m' "contents" = alistLookup m "contents" := by
  unfold stepStripField
  by_cases hf : (alistLookup g f).isSome = true
  · refine ⟨setKey m "generationConfig" (.obj (delKey g f)), delKey g f,
      ?_, ?_, ?_⟩
    · simp [pyContains, pyGetAttr, pyGetItem, pyDelItem, pySetItem,
        Bind.bind, Except.bind, hg, hf]
    · exact alistLookup_setKey_self _ _ _
    · exact alistLookup_setKey_ne _ _ _ _ (by decide)
  · rw [Bool.not_eq_true] at hf
    refine ⟨m, g, ?_, hg, rfl⟩
    simp [pyContains, pyGetAttr, Bind.bind, Except.bind, hg, hf, pure,
      Except.pure]

theorem stepImageFinal_inv (m g : List (String × Json))
    (hg : alistLookup m "generationConfig" = some (.obj g)) :
    stepImageFinal (.obj m) = .ok (.obj (setKey m "generationConfig"
      (.obj (setKey g "responseModalities" modalitiesTextImage)))) := by
  unfold stepImageFinal
  simp [pyGetItem, hg, Bind.bind, Except.bind, pySetItem]

theorem stepImage_inv (mp : String) (m g : List (String × Json))
    (hg : alistLookup m "generationConfig" = some (.obj g)) :
    ∃ m' g', stepImage mp (.obj m) = .ok (.obj m') ∧
      alistLookup m' "generationConfig" = some (.obj g') ∧
      alistLookup m' "contents" = alistLookup m "contents" := by
  unfold stepImage
  by_cases himg : strContains mp previewModel = true
  · rw [if_pos himg]
    obtain ⟨m1, g1, h1, hg1, hc1⟩ := stepStripField_inv "thinkingConfig" m g hg
    obtain ⟨m2, g2, h2, hg2, hc2⟩ :=
      stepStripField_inv "responseMimeType" m1 g1 hg1
    refine ⟨setKey m2 "generationConfig"
        (.obj (setKey g2 "responseModalities" modalitiesTextImage)),
      setKey g2 "responseModalities" modalitiesTextImage, ?_, ?_, ?_⟩
    · simp only [Bind.bind, Except.bind, h1, h2]
      exact stepImageFinal_inv m2 g2 hg2
    · exact alistLookup_setKey_self _ _ _
    · rw [alistLookup_setKey_ne _ _ _ _ (by decide), hc2, hc1]
  · rw [if_neg himg]
    exact ⟨m, g, rfl, hg, rfl⟩

theorem stepContents_inv (m : List (String × Json))
    (hct : goodContents (alistLookup m "contents") = true) :
    ∃ m', stepContents (.obj m) = .ok (.obj m') := by
  unfold stepContents
  cases hc : alistLookup m "contents" with
  | none =>
    refine ⟨m, ?_⟩
    simp [pyContains, hc, Bind.bind, Except.bind, pure, Except.pure]
  | some v =>
    rw [hc] at hct
    cases v with
    | arr cs =>
      simp only [goodContents] at hct
      obtain ⟨cs', hcs'⟩ := forEachFix_ok_all cs hct
      refine ⟨setKey m "contents" (.arr cs'), ?_⟩
      simp [pyContains, hc, Bind.bind, Except.bind, pyGetItem, fixContents,
        hcs', pySetItem, pure, Except.pure]
    | null => simp [goodContents] at hct
    | bool b => simp [goodContents] at hct
    | num n => simp [goodContents] at hct
    | str s => simp [goodContents] at hct
    | obj kvs2 => simp [goodContents] at hct

theorem transformParsed_total (mp : String) (kvs : List (String × Json))
    (hgc : isObjOpt (alistLookup kvs "generationConfig") = true)
    (hct : goodContents (alistLookup kvs "contents") = true) :
    ∃ p, transformParsed mp (.obj kvs) = .ok p := by
  obtain ⟨m1, g1, h1, hg1, hc1⟩ := stepGenCfg_inv kvs hgc
  obtain ⟨m2, g2, h2, hg2, hc2⟩ := stepImage_inv
    (if strContains mp legacyModel
     then strReplace mp legacyModel previewModel else mp) m1 g1 hg1
  have hct2 : goodContents (alistLookup m2 "contents") = true := by
    rw [hc2, hc1]; exact hct
  obtain ⟨m3, h3⟩ := stepContents_inv m2 hct2
  refine ⟨((if strContains mp legacyModel
      then strReplace mp legacyModel previewModel else mp),
    .obj (setKey m3 "safetySettings" safetySettingsJson)), ?_⟩
  unfold transformParsed
  simp only [Bind.bind, Except.bind, h1, h2, h3, pySetItem]
  rfl

/-! ## Helper lemmas: the response cleaner -/

theorem forEachFix_map (f : Json → Except Unit Json) (g : Json → Json)
    (cs : List Json) (h : ∀ c ∈ cs, f c = .ok (g c)) :
    forEachFix f cs = .ok (cs.map g) := by
  induction cs with
  | nil => rfl
  | cons c rest ih =>
    have hc : f c = .ok (g c) := h c (List.mem_cons_self c rest)
    have hrest : ∀ x ∈ rest, f x = .ok (g x) :=
      fun x hx => h x (List.mem_cons_of_mem c hx)
    simp [forEachFix, hc, ih hrest]

theorem cleanCandidate_good (c : Json) (h : candGoodB c = true) :
    cleanCandidate c = .ok (cleanCandSpec c) := by
  cases c with
  | null => simp [candGoodB] at h
  | bool b => simp [candGoodB] at h
  | num n => simp [candGoodB] at h
  | str s =>
    simp only [candGoodB, Bool.not_eq_true'] at h
    simp [cleanCandidate, pyContains, Bind.bind, Except.bind, h,
      cleanCandSpec, pure, Except.pure]
  | arr xs =>
    simp only [candGoodB, Bool.not_eq_true'] at h
    simp [cleanCandidate, pyContains, Bind.bind, Except.bind, h,
      cleanCandSpec, pure, Except.pure]
  | obj ckvs =>
    cases hcnt : alistLookup ckvs "content" with
    | none =>
      simp [cleanCandidate, pyContains, Bind.bind, Except.bind, hcnt,
        cleanCandSpec, pure, Except.pure]
    | some v =>
      simp only [candGoodB, hcnt] at h
      cases v with
      | obj cnt =>
        dsimp only at h
        cases hp : alistLookup cnt "parts" with
        | none =>
          simp [cleanCandidate, pyContains, pyGetAttr, Bind.bind, Except.bind,
            hcnt, hp, cleanCandSpec, pure, Except.pure, Option.getD]
        | some w =>
          rw [hp] at h
          cases w with
          | arr ps =>
            simp [cleanCandidate, pyContains, pyGetAttr, pyGetItem,
              pyFilterTruthy, pySetItem, Bind.bind, Except.bind, hcnt, hp,
              cleanCandSpec, pure, Except.pure, Option.getD]
          | null => simp at h
          | bool b => simp at h
          | num n => simp at h
          | str s => simp at h
          | obj kvs2 => simp at h
      | null => simp at h
      | bool b => simp at h
      | num n => simp at h
      | str s => simp at h
      | arr xs => simp at h

theorem cleanBody_good (kvs : List (String × Json)) (cands : List Json)
    (hcands : alistLookup kvs "candidates" = some (.arr cands))
    (hgood : cands.all candGoodB = true) :
    cleanBody (.obj kvs) = .ok (.obj (setKey kvs "candidates"
      (.arr (cands.map cleanCandSpec)))) := by
  have hmap : forEachFix cleanCandidate cands = .ok (cands.map cleanCandSpec) := by
    refine forEachFix_map _ _ cands (fun c hc => cleanCandidate_good c ?_)
    rw [List.all_eq_true] at hgood
    exact hgood c hc
  unfold cleanBody
  simp [pyContains, pyGetAttr, Bind.bind, Except.bind, hcands, hmap,
    pySetItem, Option.getD]

/-! ## Claim theorems -/

/-- C2 counterexample: the claim says the transform never fails on any raw
body, but a body decoding to the JSON array `[]` passes `json.loads` and
then crashes with an uncaught TypeError at
`request_json["generationConfig"] = {}` (line 101): no pass-through, no
transformed body. -/
theorem transform_total_counterexample :
    transform "gemini-2.5-pro:generateContent" (some (.arr [])) = .err := rfl

/-- C2 (amended): the transform is pure and deterministic; on a body that is
not valid JSON it forwards the original model path and body bytes unchanged
(`raw`), and it completes on every body that parses to a JSON object whose
`generationConfig`, if present, is an object and whose `contents`, if
present, is a list of objects. (On other JSON bodies it can raise an
uncaught TypeError or AttributeError — see the counterexample.) -/
theorem transform_total_amended (mp : String) (kvs : List (String × Json))
    (hgc : isObjOpt (alistLookup kvs "generationConfig") = true)
    (hct : goodContents (alistLookup kvs "contents") = true) :
    transform mp none = .raw ∧
    (transform mp (some (.obj kvs))).isSuccess = true := by
  refine ⟨rfl, ?_⟩
  obtain ⟨p, hp⟩ := transformParsed_total mp kvs hgc hct
  obtain ⟨pm, pb⟩ := p
  simp [transform, hp, TransformResult.isSuccess]

/-- C2 witness: the amended theorem applied to a concrete well-shaped
body. -/
theorem transform_total_amended_witness :
    isObjOpt (alistLookup [("contents",
      Json.arr [Json.obj [("role", Json.str "model")]])] "generationConfig") = true ∧
    goodContents (alistLookup [("contents",
      Json.arr [Json.obj [("role", Json.str "model")]])] "contents") = true ∧
    (transform "gemini-2.5-pro:generateContent" none = .raw ∧
     (transform "gemini-2.5-pro:generateContent" (some (.obj [("contents",
       Json.arr [Json.obj [("role", Json.str "model")]])]))).isSuccess = true) :=
  ⟨rfl, rfl, transform_total_amended "gemini-2.5-pro:generateContent"
    [("contents", Json.arr [Json.obj [("role", Json.str "model")]])] rfl rfl⟩

/-- C4 counterexample: the claim quantifies over every request whose body
parses as a JSON object, but the body `{"contents": 5}` is such an object
and the transform crashes on it (uncaught TypeError iterating the number at
line 113) — no transformed body with safety settings exists. -/
theorem safety_settings_counterexample :
    transform "gemini-2.5-pro:generateContent"
      (some (.obj [("contents", .num 5)])) = .err := rfl

/-- C4 (amended): whenever the transform completes on a JSON-object body,
the transformed body's `safetySettings` field is exactly the fixed
eight-entry list with every threshold `BLOCK_NONE`, overwriting any
caller-supplied value. -/
theorem safety_settings_forced (mp mp' : String) (kvs : List (String × Json))
    (b' : Json)
    (h : transform mp (some (.obj kvs)) = .ok mp' b') :
    b'.getKey "safetySettings" = some safetySettingsJson := by
  obtain ⟨-, rj1, rj2, rj3, -, -, -, h4⟩ :=
    transform_ok_elim mp mp' (.obj kvs) b' h
  exact pySetItem_getKey_self rj3 "safetySettings" safetySettingsJson b' h4

/-- C4 witness: a caller-supplied `safetySettings` value is overwritten by
the fixed list. -/
theorem safety_settings_forced_witness :
    transform "gemini-2.5-pro:generateContent"
      (some (.obj [("safetySettings", Json.str "custom")])) =
      .ok "gemini-2.5-pro:generateContent"
        (.obj [("safetySettings", safetySettingsJson),
               ("generationConfig", .obj [])]) ∧
    (Json.obj [("safetySettings", safetySettingsJson),
               ("generationConfig", .obj [])]).getKey "safetySettings" =
      some safetySettingsJson :=
  ⟨rfl, safety_settings_forced "gemini-2.5-pro:generateContent"
    "gemini-2.5-pro:generateContent" [("safetySettings", Json.str "custom")]
    (.obj [("safetySettings", safetySettingsJson),
           ("generationConfig", .obj [])]) rfl⟩

/-- C5 counterexample: the claim says the alias rewrite applies only when
the model path names the legacy model exactly, but the code (line 97) uses
a substring test: the path `xgemini-2.0-flash-exp-image-generation:...`
does not name the legacy model exactly, yet it is rewritten. -/
theorem alias_rewrite_counterexample :
    transform "xgemini-2.0-flash-exp-image-generation:generateContent"
      (some (.obj [])) =
      .ok "xgemini-2.5-flash-image-preview:generateContent"
        (.obj [("generationConfig",
                .obj [("responseModalities", .arr [.str "TEXT", .str "IMAGE"])]),
               ("safetySettings", safetySettingsJson)]) := rfl

/-- C5 (amended): on every body the transform completes on, the forwarded
model path is the input path with every occurrence of the legacy
image-generation model name replaced by the successor name whenever the
legacy name occurs as a substring (not only on an exact whole-path
match), and the path is unchanged otherwise. -/
theorem alias_rewrite_rule (mp mp' : String) (j b' : Json)
    (h : transform mp (some j) = .ok mp' b') :
    mp' = (if strContains mp legacyModel
           then strReplace mp legacyModel previewModel else mp) :=
  (transform_ok_elim mp mp' j b' h).1

/-- C5 witness: the spec's own example rewrite, on an exact legacy path. -/
theorem alias_rewrite_rule_witness :
    transform "gemini-2.0-flash-exp-image-generation:generateContent"
      (some (.obj [])) =
      .ok "gemini-2.5-flash-image-preview:generateContent"
        (.obj [("generationConfig",
                .obj [("responseModalities", .arr [.str "TEXT", .str "IMAGE"])]),
               ("safetySettings", safetySettingsJson)]) ∧
    "gemini-2.5-flash-image-preview:generateContent" =
      (if strContains "gemini-2.0-flash-exp-image-generation:generateContent"
          legacyModel
       then strReplace "gemini-2.0-flash-exp-image-generation:generateContent"
          legacyModel previewModel
       else "gemini-2.0-flash-exp-image-generation:generateContent") :=
  ⟨rfl, alias_rewrite_rule "gemini-2.0-flash-exp-image-generation:generateContent"
    "gemini-2.5-flash-image-preview:generateContent" (.obj [])
    (.obj [("generationConfig",
            .obj [("responseModalities", .arr [.str "TEXT", .str "IMAGE"])]),
           ("safetySettings", safetySettingsJson)]) rfl⟩

/-- C9 counterexample: the claim quantifies over every JSON-object body on
an image-model path, but the object body `{"generationConfig": 5}` makes
the transform crash (uncaught TypeError at line 105, `"thinkingConfig" in 5`)
— no transformed body exists. -/
theorem image_config_counterexample :
    transform "gemini-2.5-flash-image-preview:generateContent"
      (some (.obj [("generationConfig", .num 5)])) = .err := rfl

/-- C9 (amended): whenever the transform completes and the (possibly
alias-rewritten) model path contains `gemini-2.5-flash-image-preview`, the
transformed body's `generationConfig` object has no `thinkingConfig`, no
`responseMimeType`, and its `responseModalities` is exactly
`["TEXT", "IMAGE"]`. -/
theorem image_model_config (mp mp' : String) (j b' : Json)
    (h : transform mp (some j) = .ok mp' b')
    (himg : strContains mp' previewModel = true) :
    b'.getKey2 "generationConfig" "thinkingConfig" = none ∧
    b'.getKey2 "generationConfig" "responseMimeType" = none ∧
    b'.getKey2 "generationConfig" "responseModalities" =
      some (.arr [.str "TEXT", .str "IMAGE"]) := by
  obtain ⟨hmp, rj1, rj2, rj3, h1, h2, h3, h4⟩ :=
    transform_ok_elim mp mp' j b' h
  have hf := stepImage_img_fields mp' rj1 rj2 himg h2
  have hk1 : b'.getKey "generationConfig" = rj3.getKey "generationConfig" :=
    pySetItem_getKey_ne rj3 "safetySettings" "generationConfig"
      safetySettingsJson b' h4 (by decide)
  have hk2 : rj3.getKey "generationConfig" = rj2.getKey "generationConfig" :=
    stepContents_getKey_pres rj2 rj3 "generationConfig" h3 (by decide)
  have e : ∀ k2, b'.getKey2 "generationConfig" k2 =
      rj2.getKey2 "generationConfig" k2 := by
    intro k2
    rw [Json.getKey2, Json.getKey2, hk1, hk2]
  rw [e, e, e]
  exact hf

/-- C9 witness: the spec's example body, with both stripped fields present,
on the aliased image-model path. -/
theorem image_model_config_witness :
    transform "gemini-2.0-flash-exp-image-generation:generateContent"
      (some (.obj [("generationConfig",
        .obj [("thinkingConfig", .obj []), ("responseMimeType", .str "x")])])) =
      .ok "gemini-2.5-flash-image-preview:generateContent"
        (.obj [("generationConfig",
                .obj [("responseModalities", .arr [.str "TEXT", .str "IMAGE"])]),
               ("safetySettings", safetySettingsJson)]) ∧
    strContains "gemini-2.5-flash-image-preview:generateContent" previewModel = true ∧
    ((Json.obj [("generationConfig",
        .obj [("responseModalities", .arr [.str "TEXT", .str "IMAGE"])]),
       ("safetySettings", safetySettingsJson)]).getKey2
        "generationConfig" "thinkingConfig" = none ∧
     (Json.obj [("generationConfig",
        .obj [("responseModalities", .arr [.str "TEXT", .str "IMAGE"])]),
       ("safetySettings", safetySettingsJson)]).getKey2
        "generationConfig" "responseMimeType" = none ∧
     (Json.obj [("generationConfig",
        .obj [("responseModalities", .arr [.str "TEXT", .str "IMAGE"])]),
       ("safetySettings", safetySettingsJson)]).getKey2
        "generationConfig" "responseModalities" =
       some (.arr [.str "TEXT", .str "IMAGE"])) :=
  ⟨rfl, rfl, image_model_config
    "gemini-2.0-flash-exp-image-generation:generateContent"
    "gemini-2.5-flash-image-preview:generateContent"
    (.obj [("generationConfig",
      .obj [("thinkingConfig", .obj []), ("responseMimeType", .str "x")])])
    (.obj [("generationConfig",
            .obj [("responseModalities", .arr [.str "TEXT", .str "IMAGE"])]),
           ("safetySettings", safetySettingsJson)]) rfl rfl⟩

/-- C1: starting from the initial state, every aligned run of N consecutive
`next()` calls returns the configured credential list exactly, in order
(run k covers calls kN..kN+N-1); the (N+1)-th call returns the same
credential as the first; and in general the n-th call returns entry
n mod N — the full output sequence is the cyclic repetition of the
configured set. -/
theorem credential_rotator_cyclic (keys : List String) (h : keys ≠ [])
    (k n : Nat) :
    (List.range keys.length).map
      (fun i => rotOutput keys (k * keys.length + i)) = keys ∧
    rotOutput keys keys.length = rotOutput keys 0 ∧
    rotOutput keys n = keys.getD (n % keys.length) "" := by
  refine ⟨?_, ?_, rotOutput_eq keys n⟩
  · have hpt : ∀ i ∈ List.range keys.length,
        rotOutput keys (k * keys.length + i) = keys.getD i "" := by
      intro i hi
      rw [List.mem_range] at hi
      rw [rotOutput_eq, Nat.mul_comm, Nat.mul_add_mod, Nat.mod_eq_of_lt hi]
    rw [List.map_congr_left hpt]
    exact range_map_getD keys ""
  · rw [rotOutput_eq, rotOutput_eq, Nat.mod_self, Nat.zero_mod]

/-- C1 witness: a two-credential configuration, third aligned run, and the
8th call. -/
theorem credential_rotator_cyclic_witness :
    (["alpha", "beta"] : List String) ≠ [] ∧
    ((List.range (["alpha", "beta"] : List String).length).map
      (fun i => rotOutput ["alpha", "beta"]
        (3 * (["alpha", "beta"] : List String).length + i)) = ["alpha", "beta"] ∧
     rotOutput ["alpha", "beta"] (["alpha", "beta"] : List String).length =
       rotOutput ["alpha", "beta"] 0 ∧
     rotOutput ["alpha", "beta"] 7 =
       (["alpha", "beta"] : List String).getD
         (7 % (["alpha", "beta"] : List String).length) "") :=
  ⟨by decide, credential_rotator_cyclic ["alpha", "beta"] (by decide) 3 7⟩

/-- C3 counterexample: the claim says that whenever the expected substring
is absent from the probe's error body, resolution fails with a 500-class
error carrying the raw error body; but a 404 probe whose body is not valid
JSON (here the text `plain text error`, which decodes to nothing) makes
`e.response.json()` at line 62 raise an uncaught `json.JSONDecodeError`
instead — the outcome is an unhandled exception, not an `HTTPException`
carrying the body. -/
theorem resolver_rawbody_counterexample :
    get_project_id [] "k0" ⟨404, "plain text error", none⟩ =
      ⟨.pyError, [], 1⟩ := rfl

/-- C3 (amended): on a cache miss exactly one probe goes out; a 404 probe
whose decoded error message matches `projects/([^/]+)/locations/` yields the
extracted id, which is stored in the cache; a probe failing with any other
4xx/5xx status, or a 404 whose decoded message lacks the pattern, raises
`HTTPException(500)` whose detail carries the raw error body; a 404 whose
body cannot be decoded to a string message raises an uncaught exception
that carries no raw body; and a probe whose status is outside 4xx/5xx
(`raise_for_status()` raises only for those) falls through to line 70 and
raises `HTTPException(500)` with a fixed message, also without the raw
body. -/
theorem resolver_miss_spec (cache : List (String × String)) (key : String)
    (probe : ProbeResponse) (m pid : String)
    (hmiss : alistLookup cache key = none) :
    (get_project_id cache key probe).probes = 1 ∧
    (probe.status = 404 → probeMessage probe = .ok m →
      extractProjectId m = some pid →
      get_project_id cache key probe = ⟨.ok pid, (key, pid) :: cache, 1⟩) ∧
    (400 ≤ probe.status → probe.status < 600 → probe.status ≠ 404 →
      get_project_id cache key probe =
        ⟨.httpError 500 ("Failed to extract project ID: " ++ probe.text),
          cache, 1⟩) ∧
    (probe.status = 404 → probeMessage probe = .ok m →
      extractProjectId m = none →
      get_project_id cache key probe =
        ⟨.httpError 500 ("Failed to extract project ID: " ++ probe.text),
          cache, 1⟩) ∧
    (probe.status = 404 → probeMessage probe = .error () →
      get_project_id cache key probe = ⟨.pyError, cache, 1⟩) ∧
    (probe.status < 400 ∨ 600 ≤ probe.status →
      get_project_id cache key probe =
        ⟨.httpError 500 "Could not extract project ID from any key.",
          cache, 1⟩) := by
  refine ⟨?_, ?_, ?_, ?_, ?_, ?_⟩
  · unfold get_project_id
    rw [hmiss]
    dsimp only
    by_cases h46 : 400 ≤ probe.status ∧ probe.status < 600
    · rw [if_pos h46]
      by_cases h404 : probe.status = 404
      · rw [if_pos h404]
        cases probeMessage probe with
        | error e => rfl
        | ok msg => dsimp only; cases extractProjectId msg <;> rfl
      · rw [if_neg h404]
    · rw [if_neg h46]
  · intro h404 hm he
    unfold get_project_id
    rw [hmiss]
    dsimp only
    rw [if_pos (by rw [h404]; exact ⟨by norm_num, by norm_num⟩),
      if_pos h404, hm]
    dsimp only
    rw [he]
  · intro hge hlt hne
    unfold get_project_id
    rw [hmiss]
    dsimp only
    rw [if_pos ⟨hge, hlt⟩, if_neg hne]
  · intro h404 hm he
    unfold get_project_id
    rw [hmiss]
    dsimp only
    rw [if_pos (by rw [h404]; exact ⟨by norm_num, by norm_num⟩),
      if_pos h404, hm]
    dsimp only
    rw [he]
  · intro h404 hm
    unfold get_project_id
    rw [hmiss]
    dsimp only
    rw [if_pos (by rw [h404]; exact ⟨by norm_num, by norm_num⟩),
      if_pos h404, hm]
  · intro hs
    have hneg : ¬(400 ≤ probe.status ∧ probe.status < 600) := by
      intro hc
      obtain ⟨h1, h2⟩ := hc
      rcases hs with h' | h' <;> omega
    unfold get_project_id
    rw [hmiss]
    dsimp only
    rw [if_neg hneg]

/-- C3 witness: a successful extraction from a concrete 404 probe. -/
theorem resolver_miss_spec_witness :
    alistLookup ([] : List (String × String)) "kA" = none ∧
    ((get_project_id [] "kA" ⟨404, "t", some (.obj [("error",
        .obj [("message",
          .str "Model not found for projects/p1/locations/global")])])⟩).probes
      = 1 ∧
     (404 = 404 →
       probeMessage ⟨404, "t", some (.obj [("error",
         .obj [("message",
           .str "Model not found for projects/p1/locations/global")])])⟩ =
         .ok "Model not found for projects/p1/locations/global" →
       extractProjectId "Model not found for projects/p1/locations/global" =
         some "p1" →
       get_project_id [] "kA" ⟨404, "t", some (.obj [("error",
         .obj [("message",
           .str "Model not found for projects/p1/locations/global")])])⟩ =
         ⟨.ok "p1", [("kA", "p1")], 1⟩) ∧
     (400 ≤ 404 → 404 < 600 → 404 ≠ 404 →
       get_project_id [] "kA" ⟨404, "t", some (.obj [("error",
         .obj [("message",
           .str "Model not found for projects/p1/locations/global")])])⟩ =
         ⟨.httpError 500 ("Failed to extract project ID: " ++ "t"), [], 1⟩) ∧
     (404 = 404 →
       probeMessage ⟨404, "t", some (.obj [("error",
         .obj [("message",
           .str "Model not found for projects/p1/locations/global")])])⟩ =
         .ok "Model not found for projects/p1/locations/global" →
       extractProjectId "Model not found for projects/p1/locations/global" =
         none →
       get_project_id [] "kA" ⟨404, "t", some (.obj [("error",
         .obj [("message",
           .str "Model not found for projects/p1/locations/global")])])⟩ =
         ⟨.httpError 500 ("Failed to extract project ID: " ++ "t"), [], 1⟩) ∧
     (404 = 404 →
       probeMessage ⟨404, "t", some (.obj [("error",
         .obj [("message",
           .str "Model not found for projects/p1/locations/global")])])⟩ =
         .error () →
       get_project_id [] "kA" ⟨404, "t", some (.obj [("error",
         .obj [("message",
           .str "Model not found for projects/p1/locations/global")])])⟩ =
         ⟨.pyError, [], 1⟩) ∧
     ((404 : Nat) < 400 ∨ (600 : Nat) ≤ 404 →
       get_project_id [] "kA" ⟨404, "t", some (.obj [("error",
         .obj [("message",
           .str "Model not found for projects/p1/locations/global")])])⟩ =
         ⟨.httpError 500 "Could not extract project ID from any key.",
           [], 1⟩)) :=
  ⟨rfl, resolver_miss_spec [] "kA" ⟨404, "t", some (.obj [("error",
    .obj [("message",
      .str "Model not found for projects/p1/locations/global")])])⟩
    "Model not found for projects/p1/locations/global" "p1" rfl⟩

/-- C6: a miss that resolves successfully probes exactly once and stores the
id; resolving the same credential again is a cache hit returning the stored
id with zero probe calls and an unchanged cache; and any entry already in
the cache survives any later resolution unchanged (a stored id is never
overwritten). -/
theorem resolver_cache_idempotent (cache : List (String × String))
    (key key2 k v pid : String) (probe probe2 probe3 : ProbeResponse)
    (hmiss : alistLookup cache key = none)
    (hok : (get_project_id cache key probe).result = .ok pid) :
    (get_project_id cache key probe).probes = 1 ∧
    get_project_id (get_project_id cache key probe).cache key probe2 =
      ⟨.ok pid, (get_project_id cache key probe).cache, 0⟩ ∧
    (alistLookup (get_project_id cache key probe).cache k = some v →
      alistLookup (get_project_id (get_project_id cache key probe).cache
        key2 probe3).cache k = some v) := by
  have hshape := resolve_ok_shape cache key probe pid hmiss hok
  refine ⟨by rw [hshape], ?_, ?_⟩
  · rw [hshape]
    exact resolve_hit _ key probe2 pid (by simp [alistLookup])
  · intro hkv
    exact resolve_preserves _ key2 probe3 k v hkv

/-- C6 witness: resolve a credential twice against a concrete probe. -/
theorem resolver_cache_idempotent_witness :
    alistLookup ([] : List (String × String)) "kB" = none ∧
    (get_project_id [] "kB" ⟨404, "t2", some (.obj [("error",
      .obj [("message", .str "use projects/p7/locations/ now")])])⟩).result =
      .ok "p7" ∧
    ((get_project_id [] "kB" ⟨404, "t2", some (.obj [("error",
        .obj [("message", .str "use projects/p7/locations/ now")])])⟩).probes
       = 1 ∧
     get_project_id (get_project_id [] "kB" ⟨404, "t2", some (.obj [("error",
         .obj [("message", .str "use projects/p7/locations/ now")])])⟩).cache
       "kB" ⟨500, "other", none⟩ =
       ⟨.ok "p7", (get_project_id [] "kB" ⟨404, "t2", some (.obj [("error",
         .obj [("message", .str "use projects/p7/locations/ now")])])⟩).cache,
         0⟩ ∧
     (alistLookup (get_project_id [] "kB" ⟨404, "t2", some (.obj [("error",
         .obj [("message", .str "use projects/p7/locations/ now")])])⟩).cache
        "kB" = some "p7" →
      alistLookup (get_project_id (get_project_id [] "kB" ⟨404, "t2",
          some (.obj [("error",
            .obj [("message", .str "use projects/p7/locations/ now")])])⟩).cache
        "kC" ⟨403, "deny", none⟩).cache "kB" = some "p7")) :=
  ⟨rfl, rfl, resolver_cache_idempotent [] "kB" "kC" "kB" "p7" "p7"
    ⟨404, "t2", some (.obj [("error",
      .obj [("message", .str "use projects/p7/locations/ now")])])⟩
    ⟨500, "other", none⟩ ⟨403, "deny", none⟩ rfl rfl⟩

/-- C7: every upstream response with status other than 200 is relayed back
buffered and verbatim — same status, same headers, same body bytes — and
the outcome is the passthrough constructor, so the response cleaner is
never applied on this path. -/
theorem error_passthrough_verbatim (mp : String) (resp : UpstreamResponse)
    (h : resp.status ≠ 200) :
    handle_response mp resp =
      .passthrough resp.status resp.headers resp.text := by
  unfold handle_response
  rw [if_pos h]

/-- C7 witness: the spec's example, a 429 with a quota error body. -/
theorem error_passthrough_verbatim_witness :
    (429 : Nat) ≠ 200 ∧
    handle_response "gemini-2.5-pro:generateContent"
      ⟨429, [("content-type", "application/json")],
        "\x7b\"error\":\"quota\"\x7d",
        some (.obj [("error", .str "quota")])⟩ =
      .passthrough 429 [("content-type", "application/json")]
        "\x7b\"error\":\"quota\"\x7d" :=
  ⟨by decide, error_passthrough_verbatim "gemini-2.5-pro:generateContent"
    ⟨429, [("content-type", "application/json")],
      "\x7b\"error\":\"quota\"\x7d",
      some (.obj [("error", .str "quota")])⟩ (by decide)⟩

/-- C8 counterexample: the claim says candidates without content or parts
are left unchanged, but a 200 unary response whose candidates list holds
the number `5` (a candidate without content) makes the cleaner raise an
uncaught TypeError at line 207 (`'content' in 5`): no response is
produced at all. -/
theorem part_filtering_counterexample :
    handle_response "gemini-2.5-pro:generateContent"
      ⟨200, [], "w2", some (.obj [("candidates", .arr [.num 5])])⟩ =
      .err := rfl

/-- C8 (amended): for a 200 unary response whose JSON body is an object
with a `candidates` list in which every candidate is well-shaped (an object
whose `content`, if present, is an object whose `parts`, if present, is a
list; or a non-object candidate not containing `"content"`), each candidate
holding a content object with a parts list has that list replaced by the
subsequence of its truthy elements in order, and every other candidate is
left unchanged. (A candidates list containing a candidate outside this
class can instead make the cleaner raise an uncaught error — see the
counterexample — but some such candidates also complete.) -/
theorem part_filtering_spec (mp : String) (resp : UpstreamResponse)
    (kvs : List (String × Json)) (cands : List Json)
    (h200 : resp.status = 200)
    (hstream : strContains mp "streamGenerateContent" = false)
    (hjson : resp.json = some (.obj kvs))
    (hcands : alistLookup kvs "candidates" = some (.arr cands))
    (hgood : cands.all candGoodB = true) :
    handle_response mp resp =
      .unary (headerGet resp.headers "content-type")
        (.obj (setKey kvs "candidates"
          (.arr (cands.map cleanCandSpec)))) := by
  unfold handle_response
  rw [if_neg (by rw [h200]; exact fun hc => hc rfl)]
  rw [if_neg (by rw [hstream]; exact Bool.false_ne_true)]
  rw [hjson]
  dsimp only
  rw [cleanBody_good kvs cands hcands hgood]

/-- C8 witness: the spec's example, parts `["", {"text":"hi"}, null]`
filtered to `[{"text":"hi"}]`. -/
theorem part_filtering_spec_witness :
    (200 : Nat) = 200 ∧
    strContains "gemini-2.5-pro:generateContent" "streamGenerateContent" = false ∧
    (⟨200, [("content-type", "application/json")], "w",
      some (.obj [("candidates", .arr [.obj [("content",
        .obj [("parts", .arr [.str "", .obj [("text", .str "hi")],
          .null])])]])])⟩ : UpstreamResponse).json =
      some (.obj [("candidates", .arr [.obj [("content",
        .obj [("parts", .arr [.str "", .obj [("text", .str "hi")],
          .null])])]])]) ∧
    alistLookup [("candidates", Json.arr [Json.obj [("content",
      .obj [("parts", .arr [.str "", .obj [("text", .str "hi")],
        .null])])]])] "candidates" =
      some (.arr [.obj [("content", .obj [("parts",
        .arr [.str "", .obj [("text", .str "hi")], .null])])]]) ∧
    ([Json.obj [("content", .obj [("parts",
      .arr [.str "", .obj [("text", .str "hi")], .null])])]]).all candGoodB
      = true ∧
    handle_response "gemini-2.5-pro:generateContent"
      ⟨200, [("content-type", "application/json")], "w",
        some (.obj [("candidates", .arr [.obj [("content",
          .obj [("parts", .arr [.str "", .obj [("text", .str "hi")],
            .null])])]])])⟩ =
      .unary (headerGet [("content-type", "application/json")] "content-type")
        (.obj (setKey [("candidates", Json.arr [Json.obj [("content",
          .obj [("parts", .arr [.str "", .obj [("text", .str "hi")],
            .null])])]])] "candidates"
          (.arr ([Json.obj [("content", .obj [("parts",
            .arr [.str "", .obj [("text", .str "hi")],
              .null])])]].map cleanCandSpec)))) :=
  ⟨rfl, rfl, rfl, rfl, rfl, part_filtering_spec
    "gemini-2.5-pro:generateContent"
    ⟨200, [("content-type", "application/json")], "w",
      some (.obj [("candidates", .arr [.obj [("content",
        .obj [("parts", .arr [.str "", .obj [("text", .str "hi")],
          .null])])]])])⟩
    [("candidates", Json.arr [Json.obj [("content",
      .obj [("parts", .arr [.str "", .obj [("text", .str "hi")],
        .null])])]])]
    [Json.obj [("content", .obj [("parts",
      .arr [.str "", .obj [("text", .str "hi")], .null])])]]
    rfl rfl rfl rfl rfl⟩

/-- C10: one proxy call advances the rotation cursor by exactly one,
independently of the outcome of resolution, transformation, or relay (the
successor state is written unconditionally); the credential it consumes is
the one at the pre-advance cursor, and the immediately following call
consumes the next credential in cyclic order. -/
theorem proxy_cursor_advance (keys : List String) (st : ProxyState)
    (probeOf probeOf2 : String → ProbeResponse) (mp mp2 : String)
    (body body2 : Option Json) (resp resp2 : UpstreamResponse) :
    (proxy_call keys st probeOf mp body resp).state.rotIdx = st.rotIdx + 1 ∧
    (proxy_call keys st probeOf mp body resp).usedKey =
      cycleGet keys st.rotIdx ∧
    (proxy_call keys (proxy_call keys st probeOf mp body resp).state
        probeOf2 mp2 body2 resp2).usedKey =
      cycleGet keys (st.rotIdx + 1) :=
  ⟨rfl, rfl, rfl⟩
